import Mathlib

/-!
Verification development for the teleprompter application's auto-scroll
engine (`src/components/Teleprompter.tsx`) and its undo/redo history hook
(`src/hooks/useHistory.ts`).

Modelling conventions:
* JavaScript numbers are modelled as exact rationals `ℚ`; "within
  floating-point tolerance" statements become exact equalities.
* Time is measured in milliseconds, as delivered by
  `requestAnimationFrame` timestamps.
* The DOM scroll container is modelled by a `Layout` record: its
  `scrollHeight`, `clientHeight` (the container has no border, so
  `getBoundingClientRect().height` coincides with `clientHeight`), and the
  list of document-coordinate vertical centers (`offsetTop + height/2`) of
  the currently active lines, i.e. the elements obtained from
  `activeLineIndicesRef` filtered for non-null refs.  A line's
  `getBoundingClientRect().top - containerRect.top` equals its document
  top minus the container's current `scrollTop`, which is how the model
  recovers the on-screen centers measured by the `scroll` callback.
* Assigning `element.scrollTop = v` clamps `v` into
  `[0, scrollHeight - clientHeight]` (CSSOM view module); fractional
  values are kept exactly.
* The `scrollSpeedRef` is kept in sync with `settings.scrollSpeed` by the
  effect at Teleprompter.tsx lines 44-47 (and `handleScrollChange` writes
  both simultaneously), so the model carries a single `scrollSpeed` field.
-/

namespace Teleprompter

/-- The engine-relevant `Settings` record from `src/types.ts`
(`isVoiceControl` is never read by the teleprompter view and is omitted;
`isMirrorMode` is kept because claim C9 is about it). -/
structure Settings where
  scrollSpeed : ℚ
  fontSize : ℚ
  lineSpacing : ℚ
  isMirrorMode : Bool
  guidePosition : ℚ
  guideZoneSize : ℚ
  autoCenterSensitivity : ℚ
deriving DecidableEq, Repr

/-- Geometry of the scroll container at the moment a tick runs:
`scrollHeight`, `clientHeight` and the document-coordinate vertical
centers of the lines in the current active-line set (non-null refs only). -/
structure Layout where
  scrollHeight : ℚ
  clientHeight : ℚ
  activeLineCenters : List ℚ
deriving DecidableEq, Repr

/-- The mutable state of the prompting session:
`scrollPos` is `scrollPositionRef.current` (the authoritative float
accumulator), `scrollTop` the DOM scroll position last rendered,
`lastTimestamp` is `lastTimestampRef.current`, `isScrolling` the
advancing flag, `isEditing` the editor-modal flag, `elapsedTime` the
one-second session counter. -/
structure EngineState where
  scrollPos : ℚ
  scrollTop : ℚ
  lastTimestamp : ℚ
  isScrolling : Bool
  isEditing : Bool
  elapsedTime : ℕ
  settings : Settings
deriving DecidableEq, Repr

/-- DOM clamping of a scroll assignment into `[lo, hi]`. -/
def clampQ (lo hi x : ℚ) : ℚ := max lo (min hi x)

/-- `scrollHeight - clientHeight`, the maximal scroll offset. -/
def maxScroll (L : Layout) : ℚ := L.scrollHeight - L.clientHeight

/-- Lines 79-83 of the `scroll` callback: the elapsed time of a tick run
at `timestamp`, with the 0-sentinel handling of `lastTimestampRef` (a
reset reference makes the tick compute a zero delta). -/
def tickDelta (s : EngineState) (timestamp : ℚ) : ℚ :=
  timestamp - (if s.lastTimestamp = 0 then timestamp else s.lastTimestamp)

/-- Lines 98-102: the average vertical center of the active lines
relative to the container, as measured by `getBoundingClientRect`
arithmetic: `lineRect.top - containerRect.top + lineRect.height / 2`
equals the line's document center minus the current DOM `scrollTop`. -/
def avgActiveCenter (L : Layout) (scrollTop : ℚ) : ℚ :=
  ((L.activeLineCenters.map (fun c => c - scrollTop)).sum) /
    (L.activeLineCenters.length : ℚ)

/-- Line 111: `settingsRef.current.autoCenterSensitivity || 50`.  The
JavaScript `||` takes the right operand whenever the left one is falsy,
and the number `0` is falsy, so a sensitivity of `0` falls back to `50`. -/
def sensitivityOr50 (q : ℚ) : ℚ := if q = 0 then 50 else q

/-- Lines 86-116: the new value of the accumulator
`scrollPositionRef.current` produced by one tick with elapsed time
`deltaTime`: the base advance `speed * deltaTime / 1000`, plus — when the
active-line list is non-empty — the correction
`error * (0.004 * (sensitivityOr50 sensitivity / 100)) * deltaTime` where
`error` is the average active-line center minus
`containerHeight * guidePosition / 100`. -/
def tickPos (L : Layout) (s : EngineState) (deltaTime : ℚ) : ℚ :=
  let pos1 := s.scrollPos + s.settings.scrollSpeed * deltaTime / 1000
  if 0 < L.activeLineCenters.length then
    let error := avgActiveCenter L s.scrollTop -
      L.clientHeight * (s.settings.guidePosition / 100)
    pos1 +
      error * ((4 / 1000) * (sensitivityOr50 s.settings.autoCenterSensitivity / 100)) *
        deltaTime
  else pos1

/-- The per-tick `scroll` callback (Teleprompter.tsx lines 76-128), run at
`timestamp`: advance the accumulator by `tickPos`, render it by assigning
it to the DOM `scrollTop` (which clamps), then either keep advancing or —
once the rendered position is within 1 unit of `scrollHeight -
clientHeight` — clear the advancing flag and snap the DOM `scrollTop`
(but not the accumulator) to `scrollHeight - clientHeight`. -/
def scrollTick (L : Layout) (s : EngineState) (timestamp : ℚ) : EngineState :=
  let pos2 := tickPos L s (tickDelta s timestamp)
  let st := clampQ 0 (maxScroll L) pos2
  if st < maxScroll L - 1 then
    { s with scrollPos := pos2, scrollTop := st, lastTimestamp := timestamp }
  else
    { s with scrollPos := pos2, scrollTop := clampQ 0 (maxScroll L) (maxScroll L),
             lastTimestamp := timestamp, isScrolling := false }

/-- `handleScrollChange` (Teleprompter.tsx lines 205-224): while advancing,
wheel/arrow input retunes the speed to
`max(1, min(100, speed + delta * 0.5))`; while paused it moves the DOM
scroll position by `delta * 20` (clamped by the DOM) and resynchronises
the accumulator from the DOM value. -/
def handleScrollChange (L : Layout) (s : EngineState) (delta : ℚ) : EngineState :=
  if s.isScrolling then
    let newSpeed := max 1 (min 100 (s.settings.scrollSpeed + delta * (1 / 2)))
    { s with settings := { s.settings with scrollSpeed := newSpeed } }
  else
    let st := clampQ 0 (maxScroll L) (s.scrollTop + delta * 20)
    { s with scrollTop := st, scrollPos := st }

/-- `handlePlayPause` (lines 191-194) combined with the `isScrolling`
effect (lines 130-145): a guarded toggle of the advancing flag; when the
flag turns on, the effect resets `lastTimestampRef` to `0` before
scheduling the first frame. -/
def handlePlayPause (s : EngineState) : EngineState :=
  if s.isEditing then s
  else if s.isScrolling then { s with isScrolling := false }
  else { s with isScrolling := true, lastTimestamp := 0 }

/-- The bare `Advancing → Paused` transition `setIsScrolling(false)`, as
issued by `handleStop` (line 197), `handleOpenEditor` (line 244) and the
terminal branch of `scroll` (line 124): it touches only the advancing
flag. -/
def pauseEngine (s : EngineState) : EngineState := { s with isScrolling := false }

/-- `handleStop` (lines 196-203): stop advancing, zero both scroll
positions and the elapsed-time counter. -/
def handleStop (s : EngineState) : EngineState :=
  { s with isScrolling := false, scrollTop := 0, scrollPos := 0, elapsedTime := 0 }

/-- The mirror toggle (keyboard `m` at line 325, button at line 475). -/
def toggleMirror (s : EngineState) : EngineState :=
  { s with settings := { s.settings with isMirrorMode := !s.settings.isMirrorMode } }

/-- JavaScript `Math.round`: round half towards positive infinity. -/
def jsRound (q : ℚ) : ℚ := ((⌊q + 1 / 2⌋ : ℤ) : ℚ)

/-- `handleFontSizeChange` (lines 226-229). -/
def handleFontSizeChange (s : EngineState) (delta : ℚ) : EngineState :=
  { s with settings :=
      { s.settings with fontSize := max 12 (min 120 (s.settings.fontSize + delta)) } }

/-- `handleLineSpacingChange` (lines 231-235). -/
def handleLineSpacingChange (s : EngineState) (delta : ℚ) : EngineState :=
  let currentSpacing := jsRound (s.settings.lineSpacing * 10) / 10
  { s with settings :=
      { s.settings with lineSpacing := max 1 (min 3 (currentSpacing + delta)) } }

/-- The guide-drag mousemove handler (lines 260-270): map the pointer's
vertical position inside the prompter surface to a percentage, clamp to
`[10, 90]`, round to an integer percentage. -/
def handleGuideMove (s : EngineState) (pointerY surfaceHeight : ℚ) : EngineState :=
  let newPosition := jsRound (clampQ 10 90 (pointerY / surfaceHeight * 100))
  { s with settings := { s.settings with guidePosition := newPosition } }

/-- The one-second interval (lines 61-73): while advancing, increment the
elapsed-time counter. -/
def secondTick (s : EngineState) : EngineState :=
  if s.isScrolling then { s with elapsedTime := s.elapsedTime + 1 } else s

/-- Externally observable events driving the engine. A `frame` event only
fires while advancing, because `requestAnimationFrame` is scheduled by the
`isScrolling` effect and cancelled when the flag clears. -/
inductive Event where
  | frame (L : Layout) (timestamp : ℚ)
  | wheel (L : Layout) (delta : ℚ)
  | playPause
  | stop
  | mirror
  | fontSize (delta : ℚ)
  | lineSpacing (delta : ℚ)
  | guideMove (pointerY surfaceHeight : ℚ)
  | second

/-- One engine step per event. -/
def step (s : EngineState) : Event → EngineState
  | .frame L ts => if s.isScrolling then scrollTick L s ts else s
  | .wheel L d => handleScrollChange L s d
  | .playPause => handlePlayPause s
  | .stop => handleStop s
  | .mirror => toggleMirror s
  | .fontSize d => handleFontSizeChange s d
  | .lineSpacing d => handleLineSpacingChange s d
  | .guideMove y h => handleGuideMove s y h
  | .second => secondTick s

/-- Run a sequence of events. -/
def run (s : EngineState) (es : List Event) : EngineState := es.foldl step s

/-- Fold the raw per-tick routine over a list of timestamps (a partition
of an elapsed interval into animation ticks). -/
def runTicks (L : Layout) (s : EngineState) (tss : List ℚ) : EngineState :=
  tss.foldl (fun t ts => scrollTick L t ts) s

/-- Document-coordinate vertical span of one rendered script line. -/
structure LineSpan where
  top : ℚ
  height : ℚ
deriving DecidableEq, Repr

/-- The active-line classification realised by the IntersectionObserver at
Teleprompter.tsx lines 148-175: the negative `rootMargin` shrinks the root
to the horizontal band from `guidePosition - guideZoneSize/2` percent to
`guidePosition + guideZoneSize/2` percent of the container height; with
`threshold 0` a line is reported intersecting as soon as its rendered span
touches that band. -/
def lineIsActive (clientHeight guidePos zoneSize scrollTop : ℚ) (sp : LineSpan) : Bool :=
  let bandTop := clientHeight * ((guidePos - zoneSize / 2) / 100)
  let bandBottom := clientHeight * ((guidePos + zoneSize / 2) / 100)
  let relTop := sp.top - scrollTop
  decide (relTop ≤ bandBottom ∧ bandTop ≤ relTop + sp.height)

/-- Indices of the lines currently inside the guide band, from the line
spans and the current scroll position. -/
def activeIndices (clientHeight guidePos zoneSize scrollTop : ℚ)
    (lines : List LineSpan) : List ℕ :=
  (lines.enum.filter
    (fun p => lineIsActive clientHeight guidePos zoneSize scrollTop p.2)).map
    (fun p => p.1)

/-- Overwrite the mirror flag of a state, leaving every other field
untouched: `setMirror m s` and `s` "differ only in `isMirrorMode`". -/
def setMirror (m : Bool) (s : EngineState) : EngineState :=
  { s with settings := { s.settings with isMirrorMode := m } }

/-- Whether an event toggles the mirror flag. -/
def mirrorFlip : Event → Bool
  | .mirror => true
  | _ => false

/-- The last element of a timestamp list, with a default for the empty
list. -/
def lastD (tss : List ℚ) (d : ℚ) : ℚ := tss.getLast?.getD d

/-- Sample settings with auto-center sensitivity dialled all the way down
to `0` (the slider in `Controls.tsx` offers `min={0}`). -/
def exSettings : Settings :=
  { scrollSpeed := 10, fontSize := 48, lineSpacing := 3 / 2, isMirrorMode := false,
    guidePosition := 50, guideZoneSize := 10, autoCenterSensitivity := 0 }

/-- A 1000-px viewport over 10000 px of content with a single active line
whose document center sits at 600 px. -/
def exLayout : Layout :=
  { scrollHeight := 10000, clientHeight := 1000, activeLineCenters := [600] }

/-- The same container with no line currently inside the guide band. -/
def exLayoutEmpty : Layout :=
  { scrollHeight := 10000, clientHeight := 1000, activeLineCenters := [] }

/-- A short container (100 px of scrollable distance) used to exercise the
terminal boundary. -/
def exLayoutEnd : Layout :=
  { scrollHeight := 1100, clientHeight := 1000, activeLineCenters := [] }

/-- An advancing session at the top of the content. -/
def exAdvancing : EngineState :=
  { scrollPos := 0, scrollTop := 0, lastTimestamp := 1000, isScrolling := true,
    isEditing := false, elapsedTime := 7, settings := exSettings }

/-- A paused session at the top of the content. -/
def exPaused : EngineState :=
  { scrollPos := 0, scrollTop := 0, lastTimestamp := 1000, isScrolling := false,
    isEditing := false, elapsedTime := 7, settings := exSettings }

/-- An advancing session half a pixel from the terminal boundary of
`exLayoutEnd`. -/
def exNearEnd : EngineState :=
  { scrollPos := 199 / 2, scrollTop := 199 / 2, lastTimestamp := 1000,
    isScrolling := true, isEditing := false, elapsedTime := 7, settings := exSettings }

/-- An advancing session whose speed sits at 99, one notch under the cap. -/
def exAdvancing99 : EngineState :=
  { exAdvancing with settings := { exSettings with scrollSpeed := 99 } }

end Teleprompter

namespace UseHistory

/-- The state held by `useHistory` (src/hooks/useHistory.ts): the snapshot
list and the cursor.  `JSON.stringify` comparison of snapshots is modelled
as decidable equality on the snapshot type. -/
structure HistoryState (T : Type) where
  history : List T
  currentIndex : ℕ
deriving DecidableEq, Repr

/-- The initial hook state: `useState([initialState])`, `useState(0)`. -/
def initHistory {T : Type} (initialState : T) : HistoryState T :=
  ⟨[initialState], 0⟩

/-- The snapshot currently exposed: `history[currentIndex]`. -/
def currentState {T : Type} (h : HistoryState T) : Option T :=
  h.history.get? h.currentIndex

/-- `setState` (useHistory.ts lines 9-18): if the new value equals the
current snapshot, do nothing; otherwise truncate the future tail, append
the value and move the cursor to the new end. -/
def setState {T : Type} [DecidableEq T] (value : T) (h : HistoryState T) :
    HistoryState T :=
  if h.history.get? h.currentIndex = some value then h
  else
    let newHistory := h.history.take (h.currentIndex + 1) ++ [value]
    ⟨newHistory, newHistory.length - 1⟩

/-- `resetState` (lines 20-23). -/
def resetState {T : Type} (newInitialState : T) (_h : HistoryState T) :
    HistoryState T :=
  ⟨[newInitialState], 0⟩

/-- `undo` (lines 25-29). -/
def undo {T : Type} (h : HistoryState T) : HistoryState T :=
  if 0 < h.currentIndex then ⟨h.history, h.currentIndex - 1⟩ else h

/-- `redo` (lines 31-35). -/
def redo {T : Type} (h : HistoryState T) : HistoryState T :=
  if h.currentIndex < h.history.length - 1 then ⟨h.history, h.currentIndex + 1⟩
  else h

/-- The buffer invariant claimed for the hook: the snapshot list is
non-empty and the cursor is in bounds. -/
def Inv {T : Type} (h : HistoryState T) : Prop :=
  h.history ≠ [] ∧ h.currentIndex < h.history.length

instance {T : Type} [DecidableEq T] (h : HistoryState T) : Decidable (Inv h) := by
  unfold Inv; infer_instance

end UseHistory

namespace Teleprompter

theorem le_clampQ (lo hi x : ℚ) : lo ≤ clampQ lo hi x :=
  le_max_left _ _

theorem clampQ_le {lo hi : ℚ} (x : ℚ) (h : lo ≤ hi) : clampQ lo hi x ≤ hi := by
  unfold clampQ
  exact max_le h (min_le_left _ _)

theorem clampQ_of_mem {lo hi x : ℚ} (h1 : lo ≤ x) (h2 : x ≤ hi) :
    clampQ lo hi x = x := by
  unfold clampQ
  rw [min_eq_right h2, max_eq_right h1]

theorem clampQ_of_ge {lo hi x : ℚ} (h1 : lo ≤ hi) (h2 : hi ≤ x) :
    clampQ lo hi x = hi := by
  unfold clampQ
  rw [min_eq_left h2, max_eq_right h1]

theorem scrollTick_scrollPos (L : Layout) (s : EngineState) (ts : ℚ) :
    (scrollTick L s ts).scrollPos = tickPos L s (tickDelta s ts) := by
  simp only [scrollTick]
  split <;> rfl

theorem scrollTick_lastTimestamp (L : Layout) (s : EngineState) (ts : ℚ) :
    (scrollTick L s ts).lastTimestamp = ts := by
  simp only [scrollTick]
  split <;> rfl

theorem scrollTick_settings (L : Layout) (s : EngineState) (ts : ℚ) :
    (scrollTick L s ts).settings = s.settings := by
  simp only [scrollTick]
  split <;> rfl

theorem scrollTick_elapsedTime (L : Layout) (s : EngineState) (ts : ℚ) :
    (scrollTick L s ts).elapsedTime = s.elapsedTime := by
  simp only [scrollTick]
  split <;> rfl

theorem scrollTick_isEditing (L : Layout) (s : EngineState) (ts : ℚ) :
    (scrollTick L s ts).isEditing = s.isEditing := by
  simp only [scrollTick]
  split <;> rfl

theorem tickDelta_of_ne {s : EngineState} (ts : ℚ) (h : s.lastTimestamp ≠ 0) :
    tickDelta s ts = ts - s.lastTimestamp := by
  unfold tickDelta
  rw [if_neg h]

theorem tickDelta_of_zero {s : EngineState} (ts : ℚ) (h : s.lastTimestamp = 0) :
    tickDelta s ts = 0 := by
  unfold tickDelta
  rw [if_pos h, sub_self]

theorem tickPos_of_empty {L : Layout} (s : EngineState) (d : ℚ)
    (hA : L.activeLineCenters = []) :
    tickPos L s d = s.scrollPos + s.settings.scrollSpeed * d / 1000 := by
  unfold tickPos
  simp [hA]

theorem tickPos_of_active {L : Layout} (s : EngineState) (d : ℚ)
    (hA : 0 < L.activeLineCenters.length) :
    tickPos L s d =
      s.scrollPos + s.settings.scrollSpeed * d / 1000 +
        (avgActiveCenter L s.scrollTop -
            L.clientHeight * (s.settings.guidePosition / 100)) *
          ((4 / 1000) * (sensitivityOr50 s.settings.autoCenterSensitivity / 100)) * d := by
  unfold tickPos
  rw [if_pos hA]

theorem tickPos_of_zero_delta (L : Layout) (s : EngineState) :
    tickPos L s 0 = s.scrollPos := by
  unfold tickPos
  split <;> simp

end Teleprompter

namespace Teleprompter

theorem lastD_nil (d : ℚ) : lastD [] d = d := rfl

theorem lastD_cons (t : ℚ) (rest : List ℚ) (d : ℚ) :
    lastD (t :: rest) d = lastD rest t := by
  cases rest with
  | nil => rfl
  | cons a l =>
    have hne : (a :: l) ≠ [] := List.cons_ne_nil a l
    obtain ⟨y, hy⟩ := Option.isSome_iff_exists.mp (List.getLast?_isSome.mpr hne)
    simp [lastD, List.getLast?_cons_cons, hy]

/-- With an empty active-line set the per-tick routine telescopes: after
any list of ticks whose timestamps avoid the `0` sentinel, the
accumulator has advanced by exactly `speed * (final - initial) / 1000`,
whatever the subdivision. -/
theorem runTicks_scrollPos_of_empty {L : Layout} (hA : L.activeLineCenters = []) :
    ∀ (tss : List ℚ) (s : EngineState), s.lastTimestamp ≠ 0 →
      (∀ t ∈ tss, t ≠ 0) →
      (runTicks L s tss).scrollPos =
        s.scrollPos +
          s.settings.scrollSpeed * (lastD tss s.lastTimestamp - s.lastTimestamp) / 1000
  | [], s, _, _ => by simp [runTicks, lastD]
  | t :: rest, s, h0, hts => by
    have ht : t ≠ 0 := hts t (List.mem_cons_self t rest)
    have hrest : ∀ x ∈ rest, x ≠ 0 := fun x hx => hts x (List.mem_cons_of_mem _ hx)
    have h0' : (scrollTick L s t).lastTimestamp ≠ 0 := by
      rw [scrollTick_lastTimestamp]; exact ht
    have hrun : runTicks L s (t :: rest) = runTicks L (scrollTick L s t) rest := rfl
    rw [hrun, runTicks_scrollPos_of_empty hA rest (scrollTick L s t) h0' hrest,
      scrollTick_lastTimestamp, scrollTick_settings, scrollTick_scrollPos,
      tickDelta_of_ne t h0, tickPos_of_empty _ _ hA, lastD_cons]
    ring

theorem runTicks_settings (L : Layout) :
    ∀ (tss : List ℚ) (s : EngineState), (runTicks L s tss).settings = s.settings
  | [], _ => rfl
  | t :: rest, s => by
    have hrun : runTicks L s (t :: rest) = runTicks L (scrollTick L s t) rest := rfl
    rw [hrun, runTicks_settings L rest (scrollTick L s t), scrollTick_settings]

theorem scrollTick_setMirror (L : Layout) (m : Bool) (s : EngineState) (ts : ℚ) :
    scrollTick L (setMirror m s) ts = setMirror m (scrollTick L s ts) := by
  have h1 : tickDelta (setMirror m s) ts = tickDelta s ts := rfl
  have h2 : tickPos L (setMirror m s) (tickDelta s ts) = tickPos L s (tickDelta s ts) := rfl
  simp only [scrollTick, h1, h2, apply_ite (setMirror m)]
  split <;> rfl

theorem handleScrollChange_setMirror (L : Layout) (m : Bool) (s : EngineState) (d : ℚ) :
    handleScrollChange L (setMirror m s) d = setMirror m (handleScrollChange L s d) := by
  have h3 : (setMirror m s).isScrolling = s.isScrolling := rfl
  simp only [handleScrollChange, h3, apply_ite (setMirror m)]
  split <;> rfl

theorem handlePlayPause_setMirror (m : Bool) (s : EngineState) :
    handlePlayPause (setMirror m s) = setMirror m (handlePlayPause s) := by
  have h4 : (setMirror m s).isEditing = s.isEditing := rfl
  have h3 : (setMirror m s).isScrolling = s.isScrolling := rfl
  simp only [handlePlayPause, h3, h4, apply_ite (setMirror m)]
  split
  · rfl
  · split <;> rfl

theorem secondTick_setMirror (m : Bool) (s : EngineState) :
    secondTick (setMirror m s) = setMirror m (secondTick s) := by
  have h3 : (setMirror m s).isScrolling = s.isScrolling := rfl
  simp only [secondTick, h3, apply_ite (setMirror m)]
  split <;> rfl

theorem handleStop_setMirror (m : Bool) (s : EngineState) :
    handleStop (setMirror m s) = setMirror m (handleStop s) := rfl

theorem toggleMirror_setMirror (m : Bool) (s : EngineState) :
    toggleMirror (setMirror m s) = setMirror (!m) (toggleMirror s) := rfl

theorem handleFontSizeChange_setMirror (m : Bool) (s : EngineState) (d : ℚ) :
    handleFontSizeChange (setMirror m s) d = setMirror m (handleFontSizeChange s d) := rfl

theorem handleLineSpacingChange_setMirror (m : Bool) (s : EngineState) (d : ℚ) :
    handleLineSpacingChange (setMirror m s) d = setMirror m (handleLineSpacingChange s d) :=
  rfl

theorem handleGuideMove_setMirror (m : Bool) (s : EngineState) (y hgt : ℚ) :
    handleGuideMove (setMirror m s) y hgt = setMirror m (handleGuideMove s y hgt) := rfl

/-- Every engine step commutes with overwriting the mirror flag; only the
`mirror` event itself changes the flag. -/
theorem step_setMirror (e : Event) (s : EngineState) (m : Bool) :
    step (setMirror m s) e = setMirror (if mirrorFlip e then !m else m) (step s e) := by
  cases e with
  | frame L ts =>
    have h3 : (setMirror m s).isScrolling = s.isScrolling := rfl
    simp only [step, mirrorFlip, if_neg Bool.false_ne_true, h3,
      apply_ite (setMirror m)]
    split
    · exact scrollTick_setMirror L m s ts
    · rfl
  | wheel L d => exact handleScrollChange_setMirror L m s d
  | playPause => exact handlePlayPause_setMirror m s
  | stop => exact handleStop_setMirror m s
  | mirror => exact toggleMirror_setMirror m s
  | fontSize d => exact handleFontSizeChange_setMirror m s d
  | lineSpacing d => exact handleLineSpacingChange_setMirror m s d
  | guideMove y hgt => exact handleGuideMove_setMirror m s y hgt
  | second => exact secondTick_setMirror m s

theorem setMirror_setMirror (m m' : Bool) (s : EngineState) :
    setMirror m (setMirror m' s) = setMirror m s := rfl

/-- Normalising the mirror flag, a run from `setMirror m s` coincides with
the run from `s`: the mirror flag never feeds back into any other field. -/
theorem run_setMirror (es : List Event) :
    ∀ (s : EngineState) (m : Bool),
      setMirror false (run (setMirror m s) es) = setMirror false (run s es)
  | s, m => by
    induction es generalizing s m with
    | nil => rfl
    | cons e rest ih =>
      have h1 : run (setMirror m s) (e :: rest) = run (step (setMirror m s) e) rest := rfl
      have h2 : run s (e :: rest) = run (step s e) rest := rfl
      rw [h1, h2, step_setMirror e s m, ih]

end Teleprompter

namespace Teleprompter

theorem setMirror_scrollPos (m : Bool) (s : EngineState) :
    (setMirror m s).scrollPos = s.scrollPos := rfl

theorem setMirror_scrollTop (m : Bool) (s : EngineState) :
    (setMirror m s).scrollTop = s.scrollTop := rfl

theorem setMirror_isScrolling (m : Bool) (s : EngineState) :
    (setMirror m s).isScrolling = s.isScrolling := rfl

theorem setMirror_elapsedTime (m : Bool) (s : EngineState) :
    (setMirror m s).elapsedTime = s.elapsedTime := rfl

theorem setMirror_scrollSpeed (m : Bool) (s : EngineState) :
    (setMirror m s).settings.scrollSpeed = s.settings.scrollSpeed := rfl

theorem setMirror_guidePosition (m : Bool) (s : EngineState) :
    (setMirror m s).settings.guidePosition = s.settings.guidePosition := rfl

theorem setMirror_guideZoneSize (m : Bool) (s : EngineState) :
    (setMirror m s).settings.guideZoneSize = s.settings.guideZoneSize := rfl

/-- Claim C1 (amended): for a fixed speed and an active-line set that stays
empty, the scroll offset accumulated by the per-tick routine over any
partition of an elapsed time `T` into ticks equals `speed * T` (time in
ms, speed in units per second), independently of the subdivision.  The
original claim also allowed `autoCenterSensitivity = 0` as a route to zero
correction; that route fails because the code's `|| 50` default treats a
sensitivity of `0` as `50` (see `claim1_counterexample`). -/
theorem claim1_time_invariance (L : Layout) (s : EngineState) (tss : List ℚ) (T : ℚ)
    (hA : L.activeLineCenters = []) (h0 : s.lastTimestamp ≠ 0)
    (hts : ∀ t ∈ tss, t ≠ 0)
    (hlast : lastD tss s.lastTimestamp = s.lastTimestamp + T) :
    (runTicks L s tss).scrollPos = s.scrollPos + s.settings.scrollSpeed * T / 1000 := by
  rw [runTicks_scrollPos_of_empty hA tss s h0 hts, hlast]
  ring

/-- Witness for C1: speed 10, elapsed 1000 ms split into two ticks, offset
advances by exactly 10 units. -/
theorem claim1_witness :
    (runTicks exLayoutEmpty exAdvancing [1500, 2000]).scrollPos = 10 := by
  rw [claim1_time_invariance exLayoutEmpty exAdvancing [1500, 2000] 1000 rfl
    (by norm_num [exAdvancing]) (by norm_num) (by norm_num [lastD, exAdvancing])]
  norm_num [exAdvancing, exSettings]

/-- Counterexample to C1 as stated: with `autoCenterSensitivity = 0` and one
active line, a single tick of 1000 ms at speed 10 moves the offset to 210,
not `speed * T = 10`: sensitivity `0` does not give zero correction. -/
theorem claim1_counterexample :
    exAdvancing.settings.autoCenterSensitivity = 0 ∧
    (runTicks exLayout exAdvancing [2000]).scrollPos ≠
      exAdvancing.scrollPos + exAdvancing.settings.scrollSpeed * 1000 / 1000 := by
  constructor
  · rfl
  · have h1 : runTicks exLayout exAdvancing [2000] =
        scrollTick exLayout exAdvancing 2000 := rfl
    rw [h1, scrollTick_scrollPos, tickDelta_of_ne 2000 (by norm_num [exAdvancing]),
      tickPos_of_active _ _ (by norm_num [exLayout])]
    norm_num [exLayout, exAdvancing, exSettings, avgActiveCenter, sensitivityOr50]

/-- Claim C2 (amended): on an advancing tick with active lines, the offset
gains `error * gain * elapsed` with
`error = avgActiveCenter - containerHeight * guidePosition / 100` and
`gain = 0.004 * (sensitivityOr50 autoCenterSensitivity / 100)`.  The
original claim's `gain = baseGain * (autoCenterSensitivity / 100)` — zero
at sensitivity `0` — fails: the JavaScript `|| 50` maps sensitivity `0` to
`50` (see `claim2_counterexample`). -/
theorem claim2_correction_formula (L : Layout) (s : EngineState) (ts : ℚ)
    (hA : 0 < L.activeLineCenters.length) (h0 : s.lastTimestamp ≠ 0) :
    (scrollTick L s ts).scrollPos =
      s.scrollPos + s.settings.scrollSpeed * (ts - s.lastTimestamp) / 1000 +
        (avgActiveCenter L s.scrollTop -
            L.clientHeight * (s.settings.guidePosition / 100)) *
          ((4 / 1000) * (sensitivityOr50 s.settings.autoCenterSensitivity / 100)) *
          (ts - s.lastTimestamp) := by
  rw [scrollTick_scrollPos, tickDelta_of_ne ts h0, tickPos_of_active _ _ hA]

/-- Witness for C2: error 100, gain 0.002, elapsed 1000 ms, base advance
10, so the offset lands at `10 + 100 * 0.002 * 1000 = 210`. -/
theorem claim2_witness :
    (scrollTick exLayout exAdvancing 2000).scrollPos = 210 := by
  rw [claim2_correction_formula exLayout exAdvancing 2000 (by norm_num [exLayout])
    (by norm_num [exAdvancing])]
  norm_num [exLayout, exAdvancing, exSettings, avgActiveCenter, sensitivityOr50]

/-- Counterexample to C2 as stated: at `autoCenterSensitivity = 0` with an
active line the correction term is not zero — the tick's offset differs
from the pure base advance. -/
theorem claim2_counterexample :
    exAdvancing.settings.autoCenterSensitivity = 0 ∧
    0 < exLayout.activeLineCenters.length ∧
    (scrollTick exLayout exAdvancing 2000).scrollPos ≠
      exAdvancing.scrollPos +
        exAdvancing.settings.scrollSpeed * (2000 - exAdvancing.lastTimestamp) / 1000 := by
  refine ⟨rfl, by norm_num [exLayout], ?_⟩
  rw [scrollTick_scrollPos, tickDelta_of_ne 2000 (by norm_num [exAdvancing]),
    tickPos_of_active _ _ (by norm_num [exLayout])]
  norm_num [exLayout, exAdvancing, exSettings, avgActiveCenter, sensitivityOr50]

/-- Claim C3 (amended): after every tick the rendered DOM `scrollTop` lies
in `[0, scrollHeight - clientHeight]`, and whenever the accumulator
overshoots that bound the tick clears the advancing flag and snaps the
rendered `scrollTop` to exactly `scrollHeight - clientHeight`.  The
original claim said the authoritative float accumulator itself is snapped;
it is not — it retains the overshoot value (see
`claim3_counterexample`). -/
theorem claim3_terminal_snap (L : Layout) (s : EngineState) (ts : ℚ)
    (hmax : 0 ≤ maxScroll L) :
    (0 ≤ (scrollTick L s ts).scrollTop ∧ (scrollTick L s ts).scrollTop ≤ maxScroll L) ∧
    (maxScroll L < (scrollTick L s ts).scrollPos →
      (scrollTick L s ts).isScrolling = false ∧
      (scrollTick L s ts).scrollTop = maxScroll L) := by
  by_cases hc : clampQ 0 (maxScroll L) (tickPos L s (tickDelta s ts)) < maxScroll L - 1
  · have hr : scrollTick L s ts =
        { s with scrollPos := tickPos L s (tickDelta s ts),
                 scrollTop := clampQ 0 (maxScroll L) (tickPos L s (tickDelta s ts)),
                 lastTimestamp := ts } := by
      simp only [scrollTick, if_pos hc]
    rw [hr]
    refine ⟨⟨le_clampQ _ _ _, clampQ_le _ hmax⟩, ?_⟩
    intro hover
    exfalso
    have hcl : clampQ 0 (maxScroll L) (tickPos L s (tickDelta s ts)) = maxScroll L :=
      clampQ_of_ge hmax (le_of_lt hover)
    rw [hcl] at hc
    linarith
  · have hr : scrollTick L s ts =
        { s with scrollPos := tickPos L s (tickDelta s ts),
                 scrollTop := clampQ 0 (maxScroll L) (maxScroll L),
                 lastTimestamp := ts, isScrolling := false } := by
      simp only [scrollTick, if_neg hc]
    have hcl : clampQ 0 (maxScroll L) (maxScroll L) = maxScroll L :=
      clampQ_of_mem hmax le_rfl
    rw [hr, hcl]
    exact ⟨⟨hmax, le_rfl⟩, fun _ => ⟨rfl, rfl⟩⟩

/-- Witness for C3 at the terminal tick of `exLayoutEnd`. -/
theorem claim3_witness :
    (0 ≤ (scrollTick exLayoutEnd exNearEnd 2000).scrollTop ∧
      (scrollTick exLayoutEnd exNearEnd 2000).scrollTop ≤ maxScroll exLayoutEnd) ∧
    (maxScroll exLayoutEnd < (scrollTick exLayoutEnd exNearEnd 2000).scrollPos →
      (scrollTick exLayoutEnd exNearEnd 2000).isScrolling = false ∧
      (scrollTick exLayoutEnd exNearEnd 2000).scrollTop = maxScroll exLayoutEnd) :=
  claim3_terminal_snap exLayoutEnd exNearEnd 2000 (by norm_num [maxScroll, exLayoutEnd])

/-- Counterexample to C3 as stated: an overshooting terminal tick (offset
99.5 advancing 10 units past the 100-unit bound) pauses the engine but
leaves the authoritative accumulator at 109.5, above
`scrollHeight - clientHeight` — it is not snapped and not in range. -/
theorem claim3_counterexample :
    (scrollTick exLayoutEnd exNearEnd 2000).isScrolling = false ∧
    maxScroll exLayoutEnd < (scrollTick exLayoutEnd exNearEnd 2000).scrollPos ∧
    (scrollTick exLayoutEnd exNearEnd 2000).scrollPos ≠ maxScroll exLayoutEnd := by
  have hpos : (scrollTick exLayoutEnd exNearEnd 2000).scrollPos = 219 / 2 := by
    rw [scrollTick_scrollPos, tickDelta_of_ne 2000 (by norm_num [exNearEnd]),
      tickPos_of_empty _ _ (by norm_num [exLayoutEnd])]
    norm_num [exLayoutEnd, exNearEnd, exSettings]
  have hcond : ¬ (clampQ 0 (maxScroll exLayoutEnd)
      (tickPos exLayoutEnd exNearEnd (tickDelta exNearEnd 2000)) <
        maxScroll exLayoutEnd - 1) := by
    rw [tickDelta_of_ne 2000 (by norm_num [exNearEnd]),
      tickPos_of_empty _ _ (by norm_num [exLayoutEnd])]
    norm_num [exLayoutEnd, exNearEnd, exSettings, clampQ, maxScroll, min_def, max_def]
  refine ⟨?_, ?_, ?_⟩
  · simp only [scrollTick, if_neg hcond]
  · rw [hpos]; norm_num [maxScroll, exLayoutEnd]
  · rw [hpos]; norm_num [maxScroll, exLayoutEnd]

/-- Claim C4: while advancing, wheel/arrow input mutates the speed (not
the offset) by `delta * 0.5`, and the result is clamped to `[1, 100]`; in
particular any request reaching 100 or beyond yields exactly 100. -/
theorem claim4_speed_clamp (L : Layout) (s : EngineState) (delta : ℚ)
    (h : s.isScrolling = true) :
    (handleScrollChange L s delta).scrollPos = s.scrollPos ∧
    (handleScrollChange L s delta).scrollTop = s.scrollTop ∧
    (handleScrollChange L s delta).settings.scrollSpeed =
      max 1 (min 100 (s.settings.scrollSpeed + delta * (1 / 2))) ∧
    1 ≤ (handleScrollChange L s delta).settings.scrollSpeed ∧
    (handleScrollChange L s delta).settings.scrollSpeed ≤ 100 ∧
    (100 ≤ s.settings.scrollSpeed + delta * (1 / 2) →
      (handleScrollChange L s delta).settings.scrollSpeed = 100) := by
  have hr : handleScrollChange L s delta = { s with settings := { s.settings with scrollSpeed := max 1 (min 100 (s.settings.scrollSpeed + delta * (1 / 2))) } } := by
    simp [handleScrollChange, h]
  rw [hr]
  refine ⟨rfl, rfl, rfl, le_max_left _ _, max_le (by norm_num) (min_le_left _ _), ?_⟩
  intro hx
  show max 1 (min 100 (s.settings.scrollSpeed + delta * (1 / 2))) = 100
  rw [min_eq_left hx]
  exact max_eq_right (by norm_num)

/-- Witness for C4: a wheel burst of `delta = 1000` from speed 99 lands at
exactly 100. -/
theorem claim4_witness :
    exAdvancing99.isScrolling = true ∧
    (handleScrollChange exLayout exAdvancing99 1000).settings.scrollSpeed = 100 :=
  ⟨rfl, (claim4_speed_clamp exLayout exAdvancing99 1000 rfl).2.2.2.2.2
    (by norm_num [exAdvancing99, exSettings])⟩

/-- Claim C5: while paused, wheel/arrow input moves the scroll offset by
the fixed multiple `delta * 20` of the input delta (as long as the result
stays inside the scrollable range, which the DOM would otherwise clamp),
leaves the speed unchanged, and applies no correction term. -/
theorem claim5_paused_offset (L : Layout) (s : EngineState) (delta : ℚ)
    (h : s.isScrolling = false)
    (h1 : 0 ≤ s.scrollTop + delta * 20) (h2 : s.scrollTop + delta * 20 ≤ maxScroll L) :
    (handleScrollChange L s delta).scrollTop = s.scrollTop + delta * 20 ∧
    (handleScrollChange L s delta).scrollPos = s.scrollTop + delta * 20 ∧
    (handleScrollChange L s delta).settings.scrollSpeed = s.settings.scrollSpeed ∧
    (handleScrollChange L s delta).isScrolling = false := by
  have hr : handleScrollChange L s delta = { s with scrollTop := clampQ 0 (maxScroll L) (s.scrollTop + delta * 20), scrollPos := clampQ 0 (maxScroll L) (s.scrollTop + delta * 20) } := by
    simp [handleScrollChange, h]
  rw [hr, clampQ_of_mem h1 h2]
  exact ⟨rfl, rfl, rfl, h⟩

/-- Witness for C5: two wheel notches while paused move the offset to 40
and leave the speed untouched. -/
theorem claim5_witness :
    (handleScrollChange exLayout exPaused 2).scrollTop = 40 ∧
    (handleScrollChange exLayout exPaused 2).settings.scrollSpeed =
      exPaused.settings.scrollSpeed := by
  have h := claim5_paused_offset exLayout exPaused 2 rfl (by norm_num [exPaused])
    (by norm_num [exPaused, maxScroll, exLayout])
  refine ⟨?_, h.2.2.1⟩
  rw [h.1]
  norm_num [exPaused]

/-- Claim C6: resuming from pause resets the tick-timing reference to the
`0` sentinel, so the first tick after resume computes a zero elapsed time
and leaves the accumulator exactly where it was, however long the engine
was paused. -/
theorem claim6_resume_resets_timing (s : EngineState)
    (h1 : s.isEditing = false) (h2 : s.isScrolling = false) :
    (handlePlayPause s).isScrolling = true ∧
    (handlePlayPause s).lastTimestamp = 0 ∧
    ∀ (L : Layout) (ts : ℚ),
      tickDelta (handlePlayPause s) ts = 0 ∧
      (scrollTick L (handlePlayPause s) ts).scrollPos = (handlePlayPause s).scrollPos := by
  have hr : handlePlayPause s = { s with isScrolling := true, lastTimestamp := 0 } := by
    simp [handlePlayPause, h1, h2]
  rw [hr]
  refine ⟨rfl, rfl, fun L ts => ⟨?_, ?_⟩⟩
  · exact tickDelta_of_zero ts rfl
  · rw [scrollTick_scrollPos, tickDelta_of_zero ts rfl, tickPos_of_zero_delta]

/-- Witness for C6: resuming `exPaused` and ticking at timestamp 2000
(an arbitrarily late frame) advances the offset by exactly 0. -/
theorem claim6_witness :
    (handlePlayPause exPaused).isScrolling = true ∧
    (handlePlayPause exPaused).lastTimestamp = 0 ∧
    (scrollTick exLayout (handlePlayPause exPaused) 2000).scrollPos =
      (handlePlayPause exPaused).scrollPos := by
  obtain ⟨a, b, c⟩ := claim6_resume_resets_timing exPaused rfl rfl
  exact ⟨a, b, (c exLayout 2000).2⟩

/-- Claim C7: on a tick whose active-line set is empty the correction term
is skipped entirely (no empty-set average is formed) while the base
time-driven advance `speed * elapsed / 1000` still applies. -/
theorem claim7_empty_band_skip (L : Layout) (s : EngineState) (ts : ℚ)
    (hA : L.activeLineCenters = []) (h0 : s.lastTimestamp ≠ 0) :
    (scrollTick L s ts).scrollPos =
      s.scrollPos + s.settings.scrollSpeed * (ts - s.lastTimestamp) / 1000 := by
  rw [scrollTick_scrollPos, tickDelta_of_ne ts h0, tickPos_of_empty _ _ hA]

/-- Witness for C7: an empty band at speed 10 over 1000 ms advances the
offset by exactly the base 10 units. -/
theorem claim7_witness :
    (scrollTick exLayoutEmpty exAdvancing 2000).scrollPos = 10 := by
  rw [claim7_empty_band_skip exLayoutEmpty exAdvancing 2000 rfl
    (by norm_num [exAdvancing])]
  norm_num [exAdvancing, exSettings]

/-- Claim C8 (amended): the direct `Advancing → Paused` transition
(`setIsScrolling(false)`, as used by stop, the editor, and end-of-content)
is idempotent, and the play/pause control never changes offset or elapsed
time; but that control is a toggle, so issuing it twice returns the
advancing flag to its original value instead of leaving the state as after
one press (see `claim8_counterexample`). -/
theorem claim8_pause_idempotence (s : EngineState) :
    pauseEngine (pauseEngine s) = pauseEngine s ∧
    (handlePlayPause s).scrollPos = s.scrollPos ∧
    (handlePlayPause s).scrollTop = s.scrollTop ∧
    (handlePlayPause s).elapsedTime = s.elapsedTime ∧
    (handlePlayPause (handlePlayPause s)).isScrolling = s.isScrolling := by
  refine ⟨rfl, ?_, ?_, ?_, ?_⟩ <;>
    cases hse : s.isEditing <;> cases hss : s.isScrolling <;>
      simp [handlePlayPause, hse, hss]

/-- Counterexample to C8 as stated: from an advancing state, one press of
the play/pause control pauses, a second press resumes — the state after
two presses differs from the state after one. -/
theorem claim8_counterexample :
    (handlePlayPause exAdvancing).isScrolling = false ∧
    (handlePlayPause (handlePlayPause exAdvancing)).isScrolling = true ∧
    handlePlayPause (handlePlayPause exAdvancing) ≠ handlePlayPause exAdvancing :=
  ⟨rfl, rfl, fun h => Bool.noConfusion (congrArg EngineState.isScrolling h)⟩

/-- Claim C9: `isMirrorMode` is purely presentational — two runs that
differ only in the mirror flag agree, after any event sequence, on the
scroll offset, rendered scroll position, advancing flag, elapsed time,
speed, guide settings, and hence on the active-line classification. -/
theorem claim9_mirror_noninterference (s : EngineState) (m : Bool) (es : List Event) :
    (run (setMirror m s) es).scrollPos = (run s es).scrollPos ∧
    (run (setMirror m s) es).scrollTop = (run s es).scrollTop ∧
    (run (setMirror m s) es).isScrolling = (run s es).isScrolling ∧
    (run (setMirror m s) es).elapsedTime = (run s es).elapsedTime ∧
    (run (setMirror m s) es).settings.scrollSpeed = (run s es).settings.scrollSpeed ∧
    (run (setMirror m s) es).settings.guidePosition = (run s es).settings.guidePosition ∧
    (run (setMirror m s) es).settings.guideZoneSize = (run s es).settings.guideZoneSize ∧
    ∀ (lines : List LineSpan) (ch : ℚ),
      activeIndices ch ((run (setMirror m s) es).settings.guidePosition)
          ((run (setMirror m s) es).settings.guideZoneSize)
          ((run (setMirror m s) es).scrollTop) lines =
        activeIndices ch ((run s es).settings.guidePosition)
          ((run s es).settings.guideZoneSize) ((run s es).scrollTop) lines := by
  have h := run_setMirror es s m
  have hpos := congrArg EngineState.scrollPos h
  have htop := congrArg EngineState.scrollTop h
  have hscr := congrArg EngineState.isScrolling h
  have het := congrArg EngineState.elapsedTime h
  have hsp := congrArg (fun t => t.settings.scrollSpeed) h
  have hgp := congrArg (fun t => t.settings.guidePosition) h
  have hgz := congrArg (fun t => t.settings.guideZoneSize) h
  simp only [setMirror_scrollPos, setMirror_scrollTop, setMirror_isScrolling,
    setMirror_elapsedTime, setMirror_scrollSpeed, setMirror_guidePosition,
    setMirror_guideZoneSize] at hpos htop hscr het hsp hgp hgz
  exact ⟨hpos, htop, hscr, het, hsp, hgp, hgz,
    fun lines ch => by rw [hgp, hgz, htop]⟩

end Teleprompter

namespace UseHistory

/-- Claim C10: the undo/redo buffer keeps its snapshot list non-empty and
its cursor in bounds across `initHistory`, `setState`, `resetState`,
`undo` and `redo` (so the exposed state is always a defined snapshot);
`undo` at index 0 and `redo` at the last index are the identity, and
`setState` with a value equal to the current snapshot changes nothing. -/
theorem claim10_history_invariants {T : Type} [DecidableEq T]
    (h : HistoryState T) (hv : Inv h) (v t : T) :
    Inv (initHistory t) ∧ Inv (setState v h) ∧ Inv (resetState v h) ∧
    Inv (undo h) ∧ Inv (redo h) ∧
    (∃ x, currentState h = some x) ∧
    (h.currentIndex = 0 → undo h = h) ∧
    (h.currentIndex = h.history.length - 1 → redo h = h) ∧
    (currentState h = some v → setState v h = h) := by
  obtain ⟨hne, hlt⟩ := hv
  refine ⟨⟨List.cons_ne_nil t [], by simp [initHistory]⟩, ?_,
    ⟨List.cons_ne_nil v [], by simp [resetState]⟩, ?_, ?_, ?_, ?_, ?_, ?_⟩
  · unfold setState
    split
    · exact ⟨hne, hlt⟩
    · constructor
      · simp
      · simp only [List.length_append, List.length_singleton]
        omega
  · unfold undo
    split
    · exact ⟨hne, show h.currentIndex - 1 < h.history.length by omega⟩
    · exact ⟨hne, hlt⟩
  · unfold redo
    split
    · next hlt2 => exact ⟨hne, show h.currentIndex + 1 < h.history.length by omega⟩
    · exact ⟨hne, hlt⟩
  · exact ⟨h.history.get ⟨h.currentIndex, hlt⟩, List.get?_eq_get hlt⟩
  · intro h0
    unfold undo
    rw [h0]
    simp
  · intro hlast
    unfold redo
    rw [hlast]
    simp
  · intro heq
    unfold currentState at heq
    unfold setState
    rw [if_pos heq]

/-- Witness for C10 on the concrete buffer `⟨[1, 2], 1⟩`: pushing a new
snapshot keeps the invariant, and `redo` at the last index is the
identity. -/
theorem claim10_witness :
    Inv (setState 3 (⟨[1, 2], 1⟩ : HistoryState ℕ)) ∧
    redo (⟨[1, 2], 1⟩ : HistoryState ℕ) = ⟨[1, 2], 1⟩ := by
  have h := claim10_history_invariants (⟨[1, 2], 1⟩ : HistoryState ℕ) (by decide) 3 0
  exact ⟨h.2.1, h.2.2.2.2.2.2.2.1 (by decide)⟩

end UseHistory
